import Mathlib

/-!
Shallow embedding of the aws-cost-analyzer core (TypeScript) in Lean 4.

Numbers: TypeScript numeric amounts are modelled as exact rationals (`ℚ`);
`Math.round` is modelled as round-half-up (`⌊x + 1/2⌋`), which agrees with
JavaScript `Math.round` on all real inputs.

Dates: calendar dates are modelled as `(year, month, day)` triples for the
period-resolution code, and as epoch-day integers for the previous-period
window arithmetic (an ISO `YYYY-MM-DD` string parses to a UTC midnight, so
millisecond differences are exact multiples of a day).  All `Date`/ISO
conversions are modelled in UTC.

Strings: error classification and query scanning work on `String` /
`List Char`, with JavaScript regexes (`\b\d{4}\b`, the month-name
alternation) and `String.prototype.includes` modelled as executable
character-list scans.

External collaborators (the AWS SDK client, `Intl.NumberFormat`, JavaScript
number printing, and the `chrono-node` natural-language date parser) are not
part of this repository; they are passed in as explicit function parameters,
or, for chrono-node, modelled from the spec as an abstract parse oracle.
-/

/-- JavaScript `Math.round`: round half toward positive infinity. -/
def jsRound (x : ℚ) : ℤ := ⌊x + 1/2⌋

/- ===== src/mastra/utils/cost-calculations.ts ===== -/

/-- Source `calculatePercentageChange(current, previous)`:
`previous === 0` returns `current > 0 ? 100 : 0`, otherwise
`Math.round(((current - previous) / previous) * 100 * 100) / 100`. -/
def calculatePercentageChange (current previous : ℚ) : ℚ :=
  if previous = 0 then (if 0 < current then 100 else 0)
  else (jsRound ((current - previous) / previous * 100 * 100) : ℚ) / 100

/-- Source `calculateAmountChange(current, previous)`. -/
def calculateAmountChange (current previous : ℚ) : ℚ :=
  (jsRound ((current - previous) * 100) : ℚ) / 100

/-- Source `calculatePercentage(partialCost, totalCost)`: composition ratio,
0 when the total is 0, otherwise rounded to 2 decimal places. -/
def calculatePercentage (partialCost totalCost : ℚ) : ℚ :=
  if totalCost = 0 then 0
  else (jsRound (partialCost / totalCost * 100 * 100) : ℚ) / 100

/-- The three-way trend classification of the source
(`'increasing' | 'decreasing' | 'stable'`). -/
inductive Trend where
  | increasing
  | decreasing
  | stable
deriving DecidableEq, Repr

/-- Source `determineTrend(percentageChange, threshold)` (source default
`threshold = 5`; the default is applied explicitly at call sites here). -/
def determineTrend (percentageChange threshold : ℚ) : Trend :=
  if |percentageChange| < threshold then Trend.stable
  else if 0 < percentageChange then Trend.increasing
  else Trend.decreasing

/-- Rounding half-up of a nonnegative argument is nonnegative. -/
theorem jsRound_nonneg {x : ℚ} (h : 0 ≤ x) : 0 ≤ jsRound x :=
  Int.le_floor.mpr (by push_cast; linarith)

/-- Rounding half-up of a nonpositive argument is nonpositive. -/
theorem jsRound_nonpos {x : ℚ} (h : x ≤ 0) : jsRound x ≤ 0 := by
  have h1 : jsRound x < 1 := Int.floor_lt.mpr (by push_cast; linarith)
  omega

/-- C1 (amended): percentage change is 100 for `previous = 0 < current`, 0 for
`previous = current = 0`, and for nonzero `previous` it is
`((current - previous) / previous) * 100` rounded half-up to 2 decimal places
(hence an integer multiple of 1/100); for every *positive* `previous` the
result never has a sign strictly opposite to `current - previous` (for
negative `previous` the sign is inverted, see the counterexample). -/
theorem C1_calculatePercentageChange_amended (c p : ℚ) :
    (p = 0 → 0 < c → calculatePercentageChange c p = 100) ∧
    (p = 0 → c = 0 → calculatePercentageChange c p = 0) ∧
    (p ≠ 0 → calculatePercentageChange c p =
      (jsRound ((c - p) / p * 100 * 100) : ℚ) / 100) ∧
    (p ≠ 0 → ∃ k : ℤ, calculatePercentageChange c p = (k : ℚ) / 100) ∧
    (0 < p → 0 ≤ calculatePercentageChange c p * (c - p)) := by
  refine ⟨?_, ?_, ?_, ?_, ?_⟩
  · intro hp hc
    simp [calculatePercentageChange, hp, hc]
  · intro hp hc
    simp [calculatePercentageChange, hp, hc]
  · intro hp
    simp [calculatePercentageChange, hp]
  · intro hp
    exact ⟨jsRound ((c - p) / p * 100 * 100), by simp [calculatePercentageChange, hp]⟩
  · intro hp
    have hp' : p ≠ 0 := ne_of_gt hp
    rw [calculatePercentageChange, if_neg hp']
    rcases lt_trichotomy c p with hlt | heq | hgt
    · have hd : c - p < 0 := by linarith
      have hx : (c - p) / p * 100 * 100 ≤ 0 := by
        have : (c - p) / p < 0 := div_neg_of_neg_of_pos hd hp
        nlinarith
      have hr : (jsRound ((c - p) / p * 100 * 100) : ℚ) ≤ 0 := by
        exact_mod_cast jsRound_nonpos hx
      have : (jsRound ((c - p) / p * 100 * 100) : ℚ) / 100 ≤ 0 := by
        apply div_nonpos_of_nonpos_of_nonneg hr (by norm_num)
      exact mul_nonneg_of_nonpos_of_nonpos this (by linarith)
    · simp [heq]
    · have hd : 0 < c - p := by linarith
      have hx : 0 ≤ (c - p) / p * 100 * 100 := by
        have : 0 < (c - p) / p := div_pos hd hp
        nlinarith
      have hr : (0 : ℚ) ≤ (jsRound ((c - p) / p * 100 * 100) : ℚ) := by
        exact_mod_cast jsRound_nonneg hx
      have : (0 : ℚ) ≤ (jsRound ((c - p) / p * 100 * 100) : ℚ) / 100 := by positivity
      exact mul_nonneg this (by linarith)

/-- C1 (counterexample to the claim as stated): at `current = 0`,
`previous = -1` — a nonzero previous — the code returns `-100`, whose sign is
strictly opposite to `current - previous = 1 > 0`. -/
theorem C1_counterexample :
    (-1 : ℚ) ≠ 0 ∧ calculatePercentageChange 0 (-1) = -100 ∧
      calculatePercentageChange 0 (-1) * ((0 : ℚ) - (-1)) < 0 := by
  refine ⟨by norm_num, ?_, ?_⟩ <;> norm_num [calculatePercentageChange, jsRound]

/-- C1 witness: the amended theorem applied at concrete inputs. -/
theorem C1_witness :
    calculatePercentageChange 7 0 = 100 ∧
    calculatePercentageChange 0 0 = 0 ∧
    calculatePercentageChange 150 100 =
      (jsRound ((150 - 100 : ℚ) / 100 * 100 * 100) : ℚ) / 100 ∧
    0 ≤ calculatePercentageChange 150 100 * ((150 : ℚ) - 100) :=
  ⟨(C1_calculatePercentageChange_amended 7 0).1 rfl (by norm_num),
   (C1_calculatePercentageChange_amended 0 0).2.1 rfl rfl,
   (C1_calculatePercentageChange_amended 150 100).2.2.1 (by norm_num),
   (C1_calculatePercentageChange_amended 150 100).2.2.2.2 (by norm_num)⟩

/-- C2: `determineTrend` returns `stable` exactly when `|change| < threshold`;
otherwise `increasing` for positive change and `decreasing` for negative
change; at `|change| = threshold` the result is non-stable. -/
theorem C2_determineTrend_spec (c t : ℚ) :
    (determineTrend c t = Trend.stable ↔ |c| < t) ∧
    (t ≤ |c| → 0 < c → determineTrend c t = Trend.increasing) ∧
    (t ≤ |c| → c < 0 → determineTrend c t = Trend.decreasing) ∧
    (|c| = t → determineTrend c t ≠ Trend.stable) := by
  refine ⟨?_, ?_, ?_, ?_⟩
  · unfold determineTrend
    split_ifs with h1 h2 <;> simp [h1]
  · intro h1 h2
    unfold determineTrend
    rw [if_neg (by linarith), if_pos h2]
  · intro h1 h2
    unfold determineTrend
    rw [if_neg (by linarith), if_neg (by linarith)]
  · intro h
    unfold determineTrend
    rw [if_neg (by rw [h]; exact lt_irrefl t)]
    split_ifs <;> simp

/- ===== data model (src/mastra/types/aws-cost-data.ts) ===== -/

/-- A calendar date `(year, month, day)`; months are 1-based as in ISO
strings.  All `Date`/ISO conversions are modelled in UTC. -/
structure SimpleDate where
  year : ℤ
  month : ℤ
  day : ℤ
deriving DecidableEq, Repr

/-- A `{start, end}` period of inclusive calendar days (`end` is a reserved
word in Lean, hence `endDate`). -/
structure Period where
  start : SimpleDate
  endDate : SimpleDate
deriving DecidableEq, Repr

/-- Type `ServiceCostData`: one dimension of the cost breakdown.  The source
always assigns a number to `previousPeriodChange` when building these, but
the schema marks it optional. -/
structure ServiceCostData where
  name : String
  cost : ℚ
  percentage : ℚ
  previousPeriodChange : Option ℚ
deriving DecidableEq, Repr

/-- Type `TrendData` of the output schema. -/
structure TrendData where
  monthOverMonth : Option ℚ
  trend : Trend
deriving DecidableEq, Repr

/-- Type `ProcessedCostData`: the analyzed result returned to the caller. -/
structure ProcessedCostData where
  period : Period
  totalCost : ℚ
  currency : String
  services : List ServiceCostData
  trends : TrendData
  summary : String
deriving DecidableEq, Repr

/-- One `Groups` entry of a Cost Explorer result set: a `Keys` array and the
parsed `Metrics.UnblendedCost.Amount` (a missing amount parses as 0). -/
structure CostGroup where
  keys : List String
  amount : ℚ
deriving DecidableEq, Repr

/-- One `ResultsByTime[0]` result set: the declared total, its currency
`Unit` (absent modelled as `none`), and the dimension groups (an absent
`Groups` array is modelled as the empty list; the only place the source
distinguishes the two is the previous-period recomputation guard, where both
lead to the same previous total). -/
structure CostReport where
  totalAmount : ℚ
  totalUnit : Option String
  groups : List CostGroup
deriving DecidableEq, Repr

/- ===== src/mastra/utils/cost-calculations.ts : renderers ===== -/

/-- JavaScript `Array.prototype.sort((a, b) => b.cost - a.cost)`: a stable
descending-by-cost sort.  `List.insertionSort` with this relation inserts an
earlier element before later elements of equal cost, which is exactly the
stable sort. -/
def sortServicesDesc (services : List ServiceCostData) : List ServiceCostData :=
  List.insertionSort (fun a b => b.cost ≤ a.cost) services

/-- Source `getTopServices(services, topN)` (source default `topN = 10`): `.sort()`
mutates the caller's array in place, so the function is modelled
state-passing style — the result is `(array state after the call, returned
slice)`. -/
def getTopServices (services : List ServiceCostData) (topN : ℕ) :
    List ServiceCostData × List ServiceCostData :=
  let sorted := sortServicesDesc services
  (sorted, sorted.take topN)

/-- Source `formatPercentage(percentage, showSign)` (source default
`showSign = true`).  `numStr` is JavaScript number printing, an external
platform facility passed as a parameter. -/
def formatPercentage (numStr : ℚ → String) (percentage : ℚ) (showSign : Bool) : String :=
  (if showSign = true ∧ 0 < percentage then "+" else "") ++ numStr percentage ++ "%"

/-- English month name, as produced by
`toLocaleString('en-US', { month: 'long' })` on a valid date. -/
def monthNameEn (m : ℤ) : String :=
  if m = 1 then "January"
  else if m = 2 then "February"
  else if m = 3 then "March"
  else if m = 4 then "April"
  else if m = 5 then "May"
  else if m = 6 then "June"
  else if m = 7 then "July"
  else if m = 8 then "August"
  else if m = 9 then "September"
  else if m = 10 then "October"
  else if m = 11 then "November"
  else if m = 12 then "December"
  else ""

/-- The `` `${month} ${year}` `` period label built from
`new Date(data.period.start)` in `generateCostSummary`. -/
def periodLabel (d : SimpleDate) : String :=
  monthNameEn d.month ++ " " ++ toString d.year

/-- Source `generateCostSummary(data)` of src/mastra/utils/cost-calculations.ts
(the copy whose top-services count is 3).  `fmtCur` models
`Intl.NumberFormat` currency formatting (amount, currency code) and `numStr`
JavaScript number printing — both external platform facilities.  The
`!data.trends.monthOverMonth` guard is a JavaScript falsy check: it selects
the short form both when the change is absent and when it is exactly 0.
Because `getTopServices` sorts in place, the pair `(summary, array state of
data.services after the call)` is returned. -/
def generateCostSummary (fmtCur : ℚ → String → String) (numStr : ℚ → String)
    (data : ProcessedCostData) : String × List ServiceCostData :=
  let formattedCost := fmtCur data.totalCost data.currency
  let period := periodLabel data.period.start
  match data.trends.monthOverMonth with
  | none => ("Total cost for " ++ period ++ " was " ++ formattedCost ++ ".", data.services)
  | some percentageChange =>
    if percentageChange = 0 then
      ("Total cost for " ++ period ++ " was " ++ formattedCost ++ ".", data.services)
    else
      let trendText :=
        if data.trends.trend = Trend.increasing then "increase"
        else if data.trends.trend = Trend.decreasing then "decrease" else "stable"
      let gts := getTopServices data.services 3
      let topServiceText := String.intercalate ", " (gts.2.map (fun s =>
        s.name ++ " (" ++ fmtCur s.cost "USD" ++ ", " ++
          formatPercentage numStr s.percentage false ++ ")"))
      ("Total cost for " ++ period ++ " was " ++ formattedCost ++ ", showing " ++
        formatPercentage numStr percentageChange true ++ " " ++ trendText ++
        " compared to previous period. Top costs: " ++ topServiceText, gts.1)

/-- Source `generateCostOptimizationSuggestions(services, threshold)` (source
default `threshold = 100`).  Returns `(suggestions, array state of the
services argument after the call)` since `getTopServices` sorts in place. -/
def generateCostOptimizationSuggestions (fmtCur : ℚ → String → String)
    (services : List ServiceCostData) (threshold : ℚ) :
    List String × List ServiceCostData :=
  let gts := getTopServices services 5
  let suggestions := gts.2.filterMap (fun service =>
    if service.cost < threshold then none
    else if service.name = "Amazon Elastic Compute Cloud - Compute" then
      some ("EC2 instances (" ++ fmtCur service.cost "USD" ++
        "): Consider Reserved Instances for 20-40% cost savings.")
    else if service.name = "Amazon Simple Storage Service" then
      some ("S3 storage (" ++ fmtCur service.cost "USD" ++
        "): Consider Intelligent-Tiering and lifecycle policies.")
    else if service.name = "Amazon Relational Database Service" then
      some ("RDS (" ++ fmtCur service.cost "USD" ++
        "): Consider right-sizing and Reserved Instances.")
    else if 500 < service.cost then
      some (service.name ++ " (" ++ fmtCur service.cost "USD" ++
        "): Review usage patterns and optimization opportunities.")
    else none)
  (suggestions, gts.1)

/- ===== src/mastra/tools/aws-cost-fetcher.ts : processing pipeline ===== -/

/-- Sentinel handling `group.Keys?.[0] || 'Unknown'`: a missing or empty (falsy) first key is
replaced by the `'Unknown'` sentinel. -/
def serviceNameOf (g : CostGroup) : String :=
  match g.keys.head? with
  | some k => if k = "" then "Unknown" else k
  | none => "Unknown"

/-- The previous-period total used by `processAndAnalyzeCostData`: the
declared total unless it is exactly 0, in which case it is recomputed as the
sum of the group amounts. -/
def normalizedPreviousTotal (prev : CostReport) : ℚ :=
  if prev.totalAmount = 0 then (prev.groups.map (·.amount)).sum else prev.totalAmount

/-- The per-service list built by the `for (const group of ...)` loop of
`processAndAnalyzeCostData`, before percentages are assigned. -/
def rawServicesOf (cur prev : CostReport) : List ServiceCostData :=
  cur.groups.map (fun group =>
    let serviceName := serviceNameOf group
    let serviceCost := group.amount
    let previousServiceCost :=
      ((prev.groups.find? (fun g => g.keys.head? = some serviceName)).map (·.amount)).getD 0
    let previousPeriodChange :=
      if 0 < previousServiceCost then calculatePercentageChange serviceCost previousServiceCost
      else if 0 < serviceCost then (100 : ℚ) else 0
    { name := serviceName, cost := serviceCost, percentage := 0,
      previousPeriodChange := some previousPeriodChange })

/-- Reconciliation `const totalCost = apiTotalCost > 0 ? apiTotalCost : calculatedTotalCost`:
the declared current-period total when strictly positive, otherwise the sum
of the group amounts. -/
def totalCostOf (cur : CostReport) : ℚ :=
  if 0 < cur.totalAmount then cur.totalAmount else (cur.groups.map (·.amount)).sum

/-- The `services.forEach(...)` percentage assignment. -/
def pricedServicesOf (cur prev : CostReport) : List ServiceCostData :=
  (rawServicesOf cur prev).map (fun s =>
    { s with percentage :=
        if 0 < totalCostOf cur then s.cost / totalCostOf cur * 100 else 0 })

/-- The aggregate month-over-month figure of `processAndAnalyzeCostData`. -/
def monthOverMonthOf (cur prev : CostReport) : ℚ :=
  if 0 < normalizedPreviousTotal prev then
    calculatePercentageChange (totalCostOf cur) (normalizedPreviousTotal prev)
  else if 0 < totalCostOf cur then 100 else 0

/-- Source `processAndAnalyzeCostData(currentData, previousData, period)`.  The
returned record's `services` field is the array state after the
`generateCostSummary` call (the source re-sorts the already-sorted array in
place and spreads the same array object into the result). -/
def processAndAnalyzeCostData (fmtCur : ℚ → String → String) (numStr : ℚ → String)
    (currentData previousData : CostReport) (period : Period) : ProcessedCostData :=
  let currency := currentData.totalUnit.getD "USD"
  let mom := monthOverMonthOf currentData previousData
  let trends : TrendData := { monthOverMonth := some mom, trend := determineTrend mom 5 }
  let tempData : ProcessedCostData :=
    { period := period, totalCost := totalCostOf currentData, currency := currency,
      services := sortServicesDesc (pricedServicesOf currentData previousData),
      trends := trends, summary := "" }
  let gcs := generateCostSummary fmtCur numStr tempData
  { tempData with summary := gcs.1, services := gcs.2 }

/- ===== helper lemmas about the pipeline ===== -/

/-- The sort result is a permutation of the input. -/
theorem sortServicesDesc_perm (l : List ServiceCostData) :
    (sortServicesDesc l).Perm l :=
  List.perm_insertionSort _ l

/-- The sort result is descending by cost. -/
theorem sortServicesDesc_sorted (l : List ServiceCostData) :
    List.Sorted (fun a b => b.cost ≤ a.cost) (sortServicesDesc l) := by
  haveI : IsTotal ServiceCostData (fun a b => b.cost ≤ a.cost) :=
    ⟨fun a b => le_total b.cost a.cost⟩
  haveI : IsTrans ServiceCostData (fun a b => b.cost ≤ a.cost) :=
    ⟨fun _ _ _ hab hbc => le_trans hbc hab⟩
  exact List.sorted_insertionSort _ l

/-- The array state left behind by `generateCostSummary` is a permutation of
the services passed in. -/
theorem generateCostSummary_services_perm (fmtCur : ℚ → String → String)
    (numStr : ℚ → String) (d : ProcessedCostData) :
    ((generateCostSummary fmtCur numStr d).2).Perm d.services := by
  unfold generateCostSummary
  rcases h : d.trends.monthOverMonth with _ | v
  · exact List.Perm.refl _
  · by_cases hv : v = 0
    · simp [hv]
    · simp only [hv, if_neg hv]
      exact sortServicesDesc_perm _

/-- The final total is unaffected by summary generation. -/
theorem process_totalCost (fmtCur : ℚ → String → String) (numStr : ℚ → String)
    (cur prev : CostReport) (per : Period) :
    (processAndAnalyzeCostData fmtCur numStr cur prev per).totalCost = totalCostOf cur :=
  rfl

/-- The final services list is a permutation of the priced per-group list. -/
theorem process_services_perm (fmtCur : ℚ → String → String) (numStr : ℚ → String)
    (cur prev : CostReport) (per : Period) :
    ((processAndAnalyzeCostData fmtCur numStr cur prev per).services).Perm
      (pricedServicesOf cur prev) := by
  unfold processAndAnalyzeCostData
  exact (generateCostSummary_services_perm _ _ _).trans (sortServicesDesc_perm _)

/-- Every priced service's percentage is its cost share of the final total
(0 when the total is not positive). -/
theorem mem_pricedServicesOf {cur prev : CostReport} {s : ServiceCostData}
    (hs : s ∈ pricedServicesOf cur prev) :
    s.percentage = if 0 < totalCostOf cur then s.cost / totalCostOf cur * 100 else 0 := by
  unfold pricedServicesOf at hs
  rcases List.mem_map.mp hs with ⟨t, _, rfl⟩
  rfl

/-- The priced services carry exactly the group amounts as costs. -/
theorem pricedServicesOf_costs (cur prev : CostReport) :
    (pricedServicesOf cur prev).map (fun s => s.cost) =
      cur.groups.map (fun g => g.amount) := by
  unfold pricedServicesOf rawServicesOf
  simp [List.map_map]

/-- The priced services' percentages are the share function applied to the
group amounts. -/
theorem pricedServicesOf_pcts (cur prev : CostReport) :
    (pricedServicesOf cur prev).map (fun s => s.percentage) =
      (cur.groups.map (fun g => g.amount)).map (fun c =>
        if 0 < totalCostOf cur then c / totalCostOf cur * 100 else 0) := by
  unfold pricedServicesOf rawServicesOf
  simp [List.map_map]

/-- Summing `c / T * 100` over a list pulls the division and factor out. -/
theorem sum_map_div_mul (l : List ℚ) (T : ℚ) :
    (l.map (fun c => c / T * 100)).sum = l.sum / T * 100 := by
  induction l with
  | nil => simp
  | cons a t ih =>
    simp only [List.map_cons, List.sum_cons, ih]
    ring

/- ===== C4 ===== -/

/-- C4 (amended): for the current period the declared total is authoritative
exactly when it is strictly positive; a zero **or negative** declared total
is replaced by the sum of the dimension group amounts (so the claim's
"API total 0 with groups summing to 123.45 → 123.45" scenario holds, but a
negative declared total is *not* used unchanged).  For the previous period
the recomputation happens exactly when the declared total is 0. -/
theorem C4_totalReconciliation_amended (fmtCur : ℚ → String → String)
    (numStr : ℚ → String) (cur prev : CostReport) (per : Period) :
    (0 < cur.totalAmount →
      (processAndAnalyzeCostData fmtCur numStr cur prev per).totalCost = cur.totalAmount) ∧
    (cur.totalAmount ≤ 0 →
      (processAndAnalyzeCostData fmtCur numStr cur prev per).totalCost =
        (cur.groups.map (fun g => g.amount)).sum) ∧
    (prev.totalAmount = 0 →
      normalizedPreviousTotal prev = (prev.groups.map (fun g => g.amount)).sum) ∧
    (prev.totalAmount ≠ 0 → normalizedPreviousTotal prev = prev.totalAmount) := by
  refine ⟨?_, ?_, ?_, ?_⟩
  · intro h
    rw [process_totalCost, totalCostOf, if_pos h]
  · intro h
    rw [process_totalCost, totalCostOf, if_neg (not_lt.mpr h)]
  · intro h
    rw [normalizedPreviousTotal, if_pos h]
  · intro h
    rw [normalizedPreviousTotal, if_neg h]

/-- Concrete formatter stand-ins used by the concrete evaluations. -/
def fmt0 : ℚ → String → String := fun _ _ => ""

/-- Concrete number-printing stand-in. -/
def num0 : ℚ → String := fun _ => ""

/-- A sample period (May 2025). -/
def samplePeriod : Period := ⟨⟨2025, 5, 1⟩, ⟨2025, 5, 31⟩⟩

/-- Current report with a negative declared total but a positive group. -/
def curC4 : CostReport := ⟨-5, none, [⟨["ServiceA"], 10⟩]⟩

/-- Previous report with declared total 0 and no groups. -/
def prevC4 : CostReport := ⟨0, none, []⟩

/-- C4 (counterexample to the claim as stated): a declared current total of
`-5` is not zero, so by the claim it should be used unchanged; the code
instead replaces it with the group sum 10. -/
theorem C4_counterexample :
    curC4.totalAmount = -5 ∧ curC4.totalAmount ≠ 0 ∧
    (processAndAnalyzeCostData fmt0 num0 curC4 prevC4 samplePeriod).totalCost = 10 := by
  refine ⟨rfl, by norm_num [curC4], ?_⟩
  rw [process_totalCost]
  norm_num [totalCostOf, curC4]

/-- Current report for the claim's own scenario: declared total 0, groups
summing to 123.45. -/
def curC4w : CostReport := ⟨0, none, [⟨["A"], 100⟩, ⟨["B"], 2345/100⟩]⟩

/-- C4 witness: the amended theorem applied at concrete inputs — the
positive-total case and the claim's 0-vs-123.45 scenario. -/
theorem C4_witness :
    (processAndAnalyzeCostData fmt0 num0 curC4w prevC4 samplePeriod).totalCost =
      (curC4w.groups.map (fun g => g.amount)).sum ∧
    (curC4w.groups.map (fun g => g.amount)).sum = 12345 / 100 ∧
    normalizedPreviousTotal prevC4 = (prevC4.groups.map (fun g => g.amount)).sum :=
  ⟨(C4_totalReconciliation_amended fmt0 num0 curC4w prevC4 samplePeriod).2.1
      (by norm_num [curC4w]),
   by norm_num [curC4w],
   (C4_totalReconciliation_amended fmt0 num0 curC4w prevC4 samplePeriod).2.2.1 rfl⟩

/- ===== C6 ===== -/

/-- C6 (amended): every reported dimension's share is
`cost / totalAmount * 100` when the total is positive and 0 otherwise; the
shares sum to exactly 100 whenever the total is positive **and equals the
sum of the reported dimension amounts** — in particular always when the
total was recomputed from the groups (declared total ≤ 0) — but not for an
arbitrary positive declared total (see the counterexample). -/
theorem C6_dimensionShares_amended (fmtCur : ℚ → String → String)
    (numStr : ℚ → String) (cur prev : CostReport) (per : Period) :
    (∀ s ∈ (processAndAnalyzeCostData fmtCur numStr cur prev per).services,
      s.percentage =
        if 0 < (processAndAnalyzeCostData fmtCur numStr cur prev per).totalCost
        then s.cost / (processAndAnalyzeCostData fmtCur numStr cur prev per).totalCost * 100
        else 0) ∧
    ((processAndAnalyzeCostData fmtCur numStr cur prev per).totalCost = 0 →
      ∀ s ∈ (processAndAnalyzeCostData fmtCur numStr cur prev per).services,
        s.percentage = 0) ∧
    (0 < (processAndAnalyzeCostData fmtCur numStr cur prev per).totalCost →
      (processAndAnalyzeCostData fmtCur numStr cur prev per).totalCost =
        ((processAndAnalyzeCostData fmtCur numStr cur prev per).services.map
          (fun s => s.cost)).sum →
      ((processAndAnalyzeCostData fmtCur numStr cur prev per).services.map
        (fun s => s.percentage)).sum = 100) ∧
    (cur.totalAmount ≤ 0 →
      0 < (processAndAnalyzeCostData fmtCur numStr cur prev per).totalCost →
      ((processAndAnalyzeCostData fmtCur numStr cur prev per).services.map
        (fun s => s.percentage)).sum = 100) := by
  have hperm := process_services_perm fmtCur numStr cur prev per
  have htc := process_totalCost fmtCur numStr cur prev per
  have hpcts :
      ((processAndAnalyzeCostData fmtCur numStr cur prev per).services.map
        (fun s => s.percentage)).sum =
      ((cur.groups.map (fun g => g.amount)).map (fun c =>
        if 0 < totalCostOf cur then c / totalCostOf cur * 100 else 0)).sum := by
    rw [(hperm.map (fun s => s.percentage)).sum_eq, pricedServicesOf_pcts]
  have hcosts :
      ((processAndAnalyzeCostData fmtCur numStr cur prev per).services.map
        (fun s => s.cost)).sum = (cur.groups.map (fun g => g.amount)).sum := by
    rw [(hperm.map (fun s => s.cost)).sum_eq, pricedServicesOf_costs]
  refine ⟨?_, ?_, ?_, ?_⟩
  · intro s hs
    rw [htc]
    exact mem_pricedServicesOf (hperm.mem_iff.mp hs)
  · intro h0 s hs
    rw [htc] at h0
    rw [mem_pricedServicesOf (hperm.mem_iff.mp hs), h0]
    simp
  · intro hpos hsum
    rw [htc] at hpos
    rw [hcosts, htc] at hsum
    rw [hpcts]
    have : ((cur.groups.map (fun g => g.amount)).map (fun c =>
        if 0 < totalCostOf cur then c / totalCostOf cur * 100 else 0)) =
        ((cur.groups.map (fun g => g.amount)).map (fun c =>
          c / totalCostOf cur * 100)) := by
      apply List.map_congr_left
      intro c _
      rw [if_pos hpos]
    rw [this, sum_map_div_mul, ← hsum, div_self (ne_of_gt hpos)]
    norm_num
  · intro hneg hpos
    rw [htc] at hpos
    have hT : totalCostOf cur = (cur.groups.map (fun g => g.amount)).sum := by
      rw [totalCostOf, if_neg (not_lt.mpr hneg)]
    rw [hpcts]
    have : ((cur.groups.map (fun g => g.amount)).map (fun c =>
        if 0 < totalCostOf cur then c / totalCostOf cur * 100 else 0)) =
        ((cur.groups.map (fun g => g.amount)).map (fun c =>
          c / totalCostOf cur * 100)) := by
      apply List.map_congr_left
      intro c _
      rw [if_pos hpos]
    rw [this, sum_map_div_mul, ← hT, div_self (ne_of_gt hpos)]
    norm_num

/-- Current report with a positive declared total of 200 that differs from
the group sum 100. -/
def curC6 : CostReport := ⟨200, some "USD", [⟨["ServiceA"], 100⟩]⟩

/-- C6 (counterexample to the claim as stated): with a declared total 200 and
a single group of amount 100, the total is positive but the shares sum to 50,
not 100 (± rounding). -/
theorem C6_counterexample :
    (processAndAnalyzeCostData fmt0 num0 curC6 prevC4 samplePeriod).totalCost = 200 ∧
    ((processAndAnalyzeCostData fmt0 num0 curC6 prevC4 samplePeriod).services.map
      (fun s => s.percentage)).sum = 50 := by
  constructor
  · rw [process_totalCost]
    norm_num [totalCostOf, curC6]
  · rw [(((process_services_perm fmt0 num0 curC6 prevC4 samplePeriod).map
      (fun s => s.percentage)).sum_eq), pricedServicesOf_pcts]
    norm_num [curC6, totalCostOf]

/-- Current report for the witness: declared total 0, two groups summing to
200. -/
def curC6w : CostReport := ⟨0, none, [⟨["A"], 150⟩, ⟨["B"], 50⟩]⟩

/-- C6 witness: the amended theorem applied at a concrete recomputed-total
input, where the shares sum to exactly 100. -/
theorem C6_witness :
    ((processAndAnalyzeCostData fmt0 num0 curC6w prevC4 samplePeriod).services.map
      (fun s => s.percentage)).sum = 100 :=
  (C6_dimensionShares_amended fmt0 num0 curC6w prevC4 samplePeriod).2.2.2
    (by norm_num [curC6w])
    (by rw [process_totalCost]; norm_num [totalCostOf, curC6w])

/- ===== C10 ===== -/

/-- A cheap service, listed first. -/
def svA : ServiceCostData := ⟨"A", 1, 0, none⟩

/-- An expensive service, listed second. -/
def svB : ServiceCostData := ⟨"B", 2, 0, none⟩

/-- Data whose services are out of descending order and whose
month-over-month change is non-falsy, so `generateCostSummary` reaches its
sorting branch. -/
def dataC10 : ProcessedCostData :=
  ⟨samplePeriod, 3, "USD", [svA, svB], ⟨some 20, Trend.increasing⟩, ""⟩

/-- C10: `getTopServices` sorts its argument in place — after the call the
caller's array (the first component of the modelled state-passing result) is
descending by cost and a permutation of the input, the returned value is its
`topN`-prefix, and for the concrete input `[svA, svB]` the array order
actually changes; consequently `generateCostSummary` (in its
change-available branch) and `generateCostOptimizationSuggestions` reorder
the services array passed to them as a side effect. -/
theorem C10_getTopServices_inPlace :
    (∀ (services : List ServiceCostData) (topN : ℕ),
      List.Sorted (fun a b => b.cost ≤ a.cost) (getTopServices services topN).1 ∧
      ((getTopServices services topN).1).Perm services ∧
      (getTopServices services topN).2 = ((getTopServices services topN).1).take topN) ∧
    (getTopServices [svA, svB] 1).1 ≠ [svA, svB] ∧
    (generateCostSummary fmt0 num0 dataC10).2 ≠ dataC10.services ∧
    (generateCostOptimizationSuggestions fmt0 [svA, svB] 100).2 ≠ [svA, svB] := by
  refine ⟨fun services topN =>
    ⟨sortServicesDesc_sorted services, sortServicesDesc_perm services, rfl⟩, ?_, ?_, ?_⟩
  · simp [getTopServices, sortServicesDesc, svA, svB, List.orderedInsert]
  · simp [generateCostSummary, getTopServices, sortServicesDesc, dataC10, svA, svB,
      List.orderedInsert]
  · simp [generateCostOptimizationSuggestions, getTopServices, sortServicesDesc,
      svA, svB, List.orderedInsert]

/- ===== C9 ===== -/

/-- C9 (amended): `generateCostSummary` renders only the total and the period
exactly when `trends.monthOverMonth` is absent **or equal to 0** (the source
tests JavaScript falsiness, not presence); otherwise it renders the total,
the signed percentage change with a directional word, and the top-3
dimensions each annotated with its amount and its share rendered without a
sign.  The second component is the services array state after the call. -/
theorem C9_generateCostSummary_amended (fmtCur : ℚ → String → String)
    (numStr : ℚ → String) (d : ProcessedCostData) :
    ((d.trends.monthOverMonth = none ∨ d.trends.monthOverMonth = some 0) →
      generateCostSummary fmtCur numStr d =
        ("Total cost for " ++ periodLabel d.period.start ++ " was " ++
          fmtCur d.totalCost d.currency ++ ".", d.services)) ∧
    (∀ v : ℚ, d.trends.monthOverMonth = some v → v ≠ 0 →
      generateCostSummary fmtCur numStr d =
        ("Total cost for " ++ periodLabel d.period.start ++ " was " ++
          fmtCur d.totalCost d.currency ++ ", showing " ++
          formatPercentage numStr v true ++ " " ++
          (if d.trends.trend = Trend.increasing then "increase"
           else if d.trends.trend = Trend.decreasing then "decrease" else "stable") ++
          " compared to previous period. Top costs: " ++
          String.intercalate ", " (((sortServicesDesc d.services).take 3).map (fun s =>
            s.name ++ " (" ++ fmtCur s.cost "USD" ++ ", " ++
              formatPercentage numStr s.percentage false ++ ")")),
         sortServicesDesc d.services)) := by
  constructor
  · intro h
    rcases h with h | h
    · unfold generateCostSummary
      rw [h]
    · unfold generateCostSummary
      rw [h]
      simp
  · intro v hv hv0
    unfold generateCostSummary
    rw [hv]
    simp [hv0, getTopServices]

/-- Data with an available month-over-month change of exactly 0. -/
def dataC9 : ProcessedCostData :=
  ⟨samplePeriod, 100, "USD", [], ⟨some 0, Trend.stable⟩, ""⟩

/-- C9 (counterexample to the claim as stated): here a previous-period change
IS available (`monthOverMonth = some 0`), yet the summary is the short
total-and-period form with no change figure, because the source's guard
`!data.trends.monthOverMonth` treats the number 0 as falsy. -/
theorem C9_counterexample :
    dataC9.trends.monthOverMonth ≠ none ∧
    (generateCostSummary (fun _ _ => "FMT") (fun _ => "NUM") dataC9).1 =
      "Total cost for May 2025 was FMT." := by
  constructor
  · simp [dataC9]
  · rfl

/-- Data with an available nonzero change, for the witness. -/
def dataC9w : ProcessedCostData :=
  ⟨samplePeriod, 100, "USD", [], ⟨some 20, Trend.increasing⟩, ""⟩

/-- Data with no change available, for the witness. -/
def dataC9n : ProcessedCostData :=
  ⟨samplePeriod, 100, "USD", [], ⟨none, Trend.stable⟩, ""⟩

/-- C9 witness: the amended theorem applied to a change-absent input and to a
nonzero-change input. -/
theorem C9_witness :
    generateCostSummary fmt0 num0 dataC9n =
      ("Total cost for " ++ periodLabel dataC9n.period.start ++ " was " ++
        fmt0 dataC9n.totalCost dataC9n.currency ++ ".", dataC9n.services) ∧
    generateCostSummary fmt0 num0 dataC9w =
      ("Total cost for " ++ periodLabel dataC9w.period.start ++ " was " ++
        fmt0 dataC9w.totalCost dataC9w.currency ++ ", showing " ++
        formatPercentage num0 20 true ++ " " ++
        (if dataC9w.trends.trend = Trend.increasing then "increase"
         else if dataC9w.trends.trend = Trend.decreasing then "decrease" else "stable") ++
        " compared to previous period. Top costs: " ++
        String.intercalate ", " (((sortServicesDesc dataC9w.services).take 3).map (fun s =>
          s.name ++ " (" ++ fmt0 s.cost "USD" ++ ", " ++
            formatPercentage num0 s.percentage false ++ ")")),
       sortServicesDesc dataC9w.services) :=
  ⟨(C9_generateCostSummary_amended fmt0 num0 dataC9n).1 (Or.inl rfl),
   (C9_generateCostSummary_amended fmt0 num0 dataC9w).2 20 rfl (by norm_num)⟩

/- ===== src/mastra/utils/error-handlers.ts ===== -/

/-- Whether `pattern` occurs as a contiguous substring of the second list
(JavaScript `String.prototype.includes`). -/
def hasSubstr : List Char → List Char → Bool
  | pat, [] => pat.isEmpty
  | pat, c :: rest => pat.isPrefixOf (c :: rest) || hasSubstr pat rest

/-- JavaScript `s.includes(pat)` on strings. -/
def strIncludes (s pat : String) : Bool := hasSubstr pat.toList s.toList

/-- The `AWSErrorType` enum (its `toString()` values are the constructor
names). -/
inductive AWSErrorType where
  | AUTHENTICATION
  | AUTHORIZATION
  | THROTTLING
  | INVALID_PARAMETER
  | SERVICE_UNAVAILABLE
  | QUOTA_EXCEEDED
  | UNKNOWN
deriving DecidableEq, Repr

/-- The `ErrorResponse` interface (`success` is always `false`;
`errorType` is kept as the enum rather than its string image). -/
structure ErrorResponse where
  success : Bool
  error : String
  errorType : AWSErrorType
  suggestions : List String
  retryable : Bool
deriving DecidableEq, Repr

/-- Source `createErrorResponse` (source defaults `suggestions = []`,
`retryable = false` are applied explicitly at the one call site that relies
on them). -/
def createErrorResponse (errorType : AWSErrorType) (message : String)
    (suggestions : List String) (retryable : Bool) : ErrorResponse :=
  ⟨false, message, errorType, suggestions, retryable⟩

/-- Source `handleAWSError(error)`.  The input is modelled as `none` for a falsy
`error` value (`null`, `undefined`, `''`, `0`, `false`) and `some msg` for a
truthy error whose derived message (`err.message || err.toString()`) is
`msg`.  Classification is the source's ordered substring-matching chain. -/
def handleAWSError (error : Option String) : ErrorResponse :=
  match error with
  | none => createErrorResponse AWSErrorType.UNKNOWN "Unknown error occurred" [] false
  | some errorMessage =>
    if strIncludes errorMessage "The security token included in the request is invalid" ||
       strIncludes errorMessage "SignatureDoesNotMatch" ||
       strIncludes errorMessage "InvalidAccessKeyId" then
      createErrorResponse AWSErrorType.AUTHENTICATION
        "AWS credentials are invalid. Please check your access key and secret key."
        ["1. Check AWS_ACCESS_KEY_ID and AWS_SECRET_ACCESS_KEY in .env file",
         "2. Verify access key is valid in AWS Console",
         "3. Ensure IAM user is in active status"]
        false
    else if strIncludes errorMessage "UnauthorizedOperation" ||
       strIncludes errorMessage "AccessDenied" ||
       strIncludes errorMessage "Forbidden" then
      createErrorResponse AWSErrorType.AUTHORIZATION
        "Insufficient access permissions to AWS Cost Explorer."
        ["1. Grant Cost Explorer permissions to IAM user",
         "2. Required permissions: ce:GetCostAndUsage, ce:GetDimensionValues",
         "3. Ask administrator to review IAM policies"]
        false
    else if strIncludes errorMessage "Throttling" ||
       strIncludes errorMessage "RequestLimitExceeded" ||
       strIncludes errorMessage "TooManyRequests" then
      createErrorResponse AWSErrorType.THROTTLING
        "AWS API rate limit reached. Please wait a moment and try again."
        ["1. Wait 5-10 minutes before retrying",
         "2. Avoid consecutive rapid executions",
         "3. Contact AWS support for limit increase if needed"]
        true
    else if strIncludes errorMessage "ValidationException" ||
       strIncludes errorMessage "InvalidParameter" ||
       strIncludes errorMessage "invalid date" then
      createErrorResponse AWSErrorType.INVALID_PARAMETER
        "Request parameters are invalid. Please check date range and specification."
        ["1. Ensure date format is YYYY-MM-DD",
         "2. Verify start date is before end date",
         "3. Specify period within the last 13 months"]
        false
    else if strIncludes errorMessage "You haven't enabled historical data" ||
       strIncludes errorMessage "historical data beyond" then
      createErrorResponse AWSErrorType.INVALID_PARAMETER
        "Cost Explorer historical data is not enabled or data for the specified period does not exist."
        ["1. Enable data in AWS Billing and Cost Management (takes 24 hours)",
         "2. Try retrieving data for a shorter period",
         "3. Manually check data existence in Cost Explorer"]
        false
    else if strIncludes errorMessage "ServiceUnavailable" ||
       strIncludes errorMessage "InternalError" ||
       strIncludes errorMessage "500" then
      createErrorResponse AWSErrorType.SERVICE_UNAVAILABLE
        "AWS Cost Explorer service is temporarily unavailable."
        ["1. Retry after waiting a moment",
         "2. Check AWS Service Health Dashboard",
         "3. Contact AWS support if the problem persists"]
        true
    else if strIncludes errorMessage "LimitExceeded" ||
       strIncludes errorMessage "exceeded your current quota" then
      createErrorResponse AWSErrorType.QUOTA_EXCEEDED
        "AWS account usage limit exceeded."
        ["1. Check Usage Limits in billing settings",
         "2. Increase limits as needed",
         "3. Contact AWS support for limit increase"]
        false
    else
      createErrorResponse AWSErrorType.UNKNOWN
        ("Unexpected error occurred: " ++ errorMessage)
        ["1. Retry after waiting a moment",
         "2. Check environment variable settings",
         "3. Contact administrator if the problem persists"]
        true

/-- C7 (amended): for a present error message, `retryable` is `true` exactly
for the `THROTTLING`, `SERVICE_UNAVAILABLE` and fall-through `UNKNOWN`
classes; however, the `UNKNOWN` response produced for an absent/falsy error
input has `retryable = false` (and no suggestions); and a message containing
`'AccessDenied'` is classified `AUTHORIZATION` with `retryable = false` and
exactly three fixed suggestions **provided** none of the three
higher-priority authentication signatures also occurs in it. -/
theorem C7_handleAWSError_amended (msg : String) :
    ((handleAWSError (some msg)).retryable = true ↔
      ((handleAWSError (some msg)).errorType = AWSErrorType.THROTTLING ∨
       (handleAWSError (some msg)).errorType = AWSErrorType.SERVICE_UNAVAILABLE ∨
       (handleAWSError (some msg)).errorType = AWSErrorType.UNKNOWN)) ∧
    (handleAWSError none).errorType = AWSErrorType.UNKNOWN ∧
    (handleAWSError none).retryable = false ∧
    (handleAWSError none).suggestions = [] ∧
    (strIncludes msg "AccessDenied" = true →
      strIncludes msg "The security token included in the request is invalid" = false →
      strIncludes msg "SignatureDoesNotMatch" = false →
      strIncludes msg "InvalidAccessKeyId" = false →
      (handleAWSError (some msg)).errorType = AWSErrorType.AUTHORIZATION ∧
      (handleAWSError (some msg)).retryable = false ∧
      (handleAWSError (some msg)).suggestions.length = 3) := by
  refine ⟨?_, rfl, rfl, rfl, ?_⟩
  · simp only [handleAWSError]
    split_ifs <;> simp [createErrorResponse]
  · intro h1 h2 h3 h4
    simp [handleAWSError, h1, h2, h3, h4, createErrorResponse]

/-- C7 (counterexample to the claim as stated): the falsy-error branch
returns `UNKNOWN` with `retryable = false` (the claim requires `true` for the
`UNKNOWN` class), and a message containing both an authentication signature
and `'AccessDenied'` is classified `AUTHENTICATION`, not `AUTHORIZATION`. -/
theorem C7_counterexample :
    (handleAWSError none).errorType = AWSErrorType.UNKNOWN ∧
    (handleAWSError none).retryable = false ∧
    (handleAWSError (some "SignatureDoesNotMatch after AccessDenied")).errorType =
      AWSErrorType.AUTHENTICATION := by
  refine ⟨rfl, rfl, ?_⟩
  decide

/-- C7 witness: the amended theorem applied to the message
`"AccessDenied"`. -/
theorem C7_witness :
    (handleAWSError (some "AccessDenied")).errorType = AWSErrorType.AUTHORIZATION ∧
    (handleAWSError (some "AccessDenied")).retryable = false ∧
    (handleAWSError (some "AccessDenied")).suggestions.length = 3 := by
  have h := (C7_handleAWSError_amended "AccessDenied").2.2.2.2
    (by decide) (by decide) (by decide) (by decide)
  exact ⟨h.1, h.2.1, h.2.2⟩

/- ===== date helpers and period resolution ===== -/

/-- JavaScript regex word character (`\w` = `[A-Za-z0-9_]`). -/
def wordChar (c : Char) : Bool := c.isAlphanum || c = '_'

/-- A `\b` word boundary holds before a word character when the preceding
character (if any) is not a word character. -/
def boundaryOk : Option Char → Bool
  | none => true
  | some c => !(wordChar c)

/-- Four digits start here, followed by a word boundary. -/
def fourDigitsHere : List Char → Bool
  | c1 :: c2 :: c3 :: c4 :: rest =>
    c1.isDigit && c2.isDigit && c3.isDigit && c4.isDigit &&
      (match rest with
       | [] => true
       | c5 :: _ => !(wordChar c5))
  | _ => false

/-- Scan for `/\b\d{4}\b/` carrying the previous character. -/
def hasFourDigitTokenAux (prev : Option Char) : List Char → Bool
  | [] => false
  | c :: rest =>
    (boundaryOk prev && fourDigitsHere (c :: rest)) || hasFourDigitTokenAux (some c) rest

/-- Test `/\b\d{4}\b/.test(query)`: some position holds four digits delimited by
word boundaries (digits are word characters, so a run of five digits does not
match). -/
def hasFourDigitToken (l : List Char) : Bool := hasFourDigitTokenAux none l

/-- The month-name alternation of the source regex, lowercased, with the
1-based month index the source derives via
`new Date(monthName + " 1, " + year).getMonth() + 1`. -/
def monthTable : List (List Char × ℤ) :=
  [("january".toList, 1), ("february".toList, 2), ("march".toList, 3),
   ("april".toList, 4), ("may".toList, 5), ("june".toList, 6),
   ("july".toList, 7), ("august".toList, 8), ("september".toList, 9),
   ("october".toList, 10), ("november".toList, 11), ("december".toList, 12)]

/-- The month name (if any) matching case-insensitively at the head of the
suffix, with a word boundary after it.  Month names are pairwise non-prefix,
so at most one alternative matches at a position. -/
def monthAt (l : List Char) : Option ℤ :=
  (monthTable.find? (fun p =>
    p.1.isPrefixOf (l.map Char.toLower) &&
      (match l.drop p.1.length with
       | [] => true
       | c :: _ => !(wordChar c)))).map (fun p => p.2)

/-- Leftmost-position scan of
`/\b(January|...|December)\b/i`, carrying the previous character for the
leading boundary. -/
def findMonthAux (prev : Option Char) : List Char → Option ℤ
  | [] => none
  | c :: rest =>
    match (if boundaryOk prev then monthAt (c :: rest) else none) with
    | some m => some m
    | none => findMonthAux (some c) rest

/-- Match `query.match(/\b(January|...)\b/i)` reduced to the matched month's
1-based index. -/
def findMonth (l : List Char) : Option ℤ := findMonthAux none l

/-- Gregorian leap year, as implemented by the JavaScript `Date`. -/
def isLeapYear (y : ℤ) : Bool :=
  y % 4 == 0 && (y % 100 != 0 || y % 400 == 0)

/-- Model of `new Date(y, m, 0).getDate()` for 1-based month `m`: the number of days
of that month, with JavaScript's month normalization for out-of-range `m`. -/
def daysInMonth (y m : ℤ) : ℤ :=
  if (m - 1).emod 12 = 1 then
    (if isLeapYear (y + (m - 1).ediv 12) then 29 else 28)
  else if (m - 1).emod 12 = 3 ∨ (m - 1).emod 12 = 5 ∨ (m - 1).emod 12 = 8 ∨
    (m - 1).emod 12 = 10 then 30
  else 31

/-- Every month has at least one day. -/
theorem daysInMonth_pos (y m : ℤ) : 1 ≤ daysInMonth y m := by
  unfold daysInMonth
  split_ifs <;> norm_num

/-- The first-to-last-day range of a month, as assembled from
`` `${year}-${mm}-01` `` and `new Date(year, monthIndex, 0).getDate()`. -/
def monthRangeOfYM (y m : ℤ) : Period :=
  ⟨⟨y, m, 1⟩, ⟨y, m, daysInMonth y m⟩⟩

/-- Source `getMonthRange(monthOffset)` of src/mastra/utils/date-helpers.ts:
`new Date(year, month, 1)` through `new Date(year, month + 1, 0)` with
JavaScript month normalization, modelled in UTC. -/
def getMonthRange (now : SimpleDate) (monthOffset : ℤ) : Period :=
  let m0 := (now.month - 1) + monthOffset
  monthRangeOfYM (now.year + m0.ediv 12) (m0.emod 12 + 1)

/-- Calendar order on dates (lexicographic; the dates produced by the
resolver always share year and month within one period). -/
def dateLe (a b : SimpleDate) : Prop :=
  a.year < b.year ∨
    (a.year = b.year ∧ (a.month < b.month ∨ (a.month = b.month ∧ a.day ≤ b.day)))

instance (a b : SimpleDate) : Decidable (dateLe a b) := by
  unfold dateLe
  infer_instance

/-- Modelled from the spec: the result of the external `chrono-node`
natural-language date parser (not part of this repository).  Per spec §4.1
step 3, a successful parse carries the extracted year and month (absent or 0
behaves as JavaScript-falsy), whether the day is certain, and the concrete
parsed date used in the single-day branch. -/
structure ChronoSpan where
  yearV : Option ℤ
  monthV : Option ℤ
  dayCertain : Bool
  dateV : SimpleDate
deriving DecidableEq, Repr

/-- The manual relative-pattern fallbacks of `extractPeriodFromQuery`
("this month"/"current month", then "last month"/"previous month", then the
default current month). -/
def chronoFallback (query : List Char) (now : SimpleDate) : Period :=
  if hasSubstr "this month".toList (query.map Char.toLower) ||
     hasSubstr "current month".toList (query.map Char.toLower) then getMonthRange now 0
  else if hasSubstr "last month".toList (query.map Char.toLower) ||
     hasSubstr "previous month".toList (query.map Char.toLower) then getMonthRange now (-1)
  else getMonthRange now 0

/-- The general-parser path of `extractPeriodFromQuery` (step ③ plus the
fallbacks): `chrono.parse(query, now, { forwardDate: false })` abstracted as
the oracle `chronoParse`.  `year && month && !isCertain('day')` yields the
whole month; a certain day yields a single-day period; anything else falls
through to the substring fallbacks. -/
def chronoPath (chronoParse : List Char → SimpleDate → Option ChronoSpan)
    (query : List Char) (now : SimpleDate) : Period :=
  match chronoParse query now with
  | some span =>
    if span.yearV.getD 0 ≠ 0 ∧ span.monthV.getD 0 ≠ 0 ∧ span.dayCertain = false then
      monthRangeOfYM (span.yearV.getD 0) (span.monthV.getD 0)
    else if span.dayCertain = true then ⟨span.dateV, span.dateV⟩
    else chronoFallback query now
  | none => chronoFallback query now

/-- Source `extractPeriodFromQuery(query)`: ① a 4-digit token anywhere skips the
month-only shortcut; ② a bare month name resolves to that month of the
reference instant's current year; ③ otherwise the general parser and the
fallbacks decide. -/
def extractPeriodFromQuery (chronoParse : List Char → SimpleDate → Option ChronoSpan)
    (query : List Char) (now : SimpleDate) : Period :=
  if hasFourDigitToken query = false then
    match findMonth query with
    | some monthIndex => monthRangeOfYM now.year monthIndex
    | none => chronoPath chronoParse query now
  else chronoPath chronoParse query now

/-- Date order is reflexive. -/
theorem dateLe_refl (d : SimpleDate) : dateLe d d :=
  Or.inr ⟨rfl, Or.inr ⟨rfl, le_refl _⟩⟩

/-- A month range runs from its first to its last day. -/
theorem monthRangeOfYM_dateLe (y m : ℤ) :
    dateLe (monthRangeOfYM y m).start (monthRangeOfYM y m).endDate :=
  Or.inr ⟨rfl, Or.inr ⟨rfl, daysInMonth_pos y m⟩⟩

/-- Lemma: `getMonthRange` satisfies the period invariant. -/
theorem getMonthRange_dateLe (now : SimpleDate) (off : ℤ) :
    dateLe (getMonthRange now off).start (getMonthRange now off).endDate :=
  monthRangeOfYM_dateLe _ _

/-- The fallback layer satisfies the period invariant. -/
theorem chronoFallback_dateLe (query : List Char) (now : SimpleDate) :
    dateLe (chronoFallback query now).start (chronoFallback query now).endDate := by
  unfold chronoFallback
  split_ifs <;> exact getMonthRange_dateLe _ _

/-- The general-parser path satisfies the period invariant for every oracle
behavior. -/
theorem chronoPath_dateLe (chronoParse : List Char → SimpleDate → Option ChronoSpan)
    (query : List Char) (now : SimpleDate) :
    dateLe (chronoPath chronoParse query now).start
      (chronoPath chronoParse query now).endDate := by
  unfold chronoPath
  cases chronoParse query now with
  | none => exact chronoFallback_dateLe query now
  | some span =>
    dsimp only
    split_ifs
    · exact monthRangeOfYM_dateLe _ _
    · exact dateLe_refl _
    · exact chronoFallback_dateLe query now

/-- C8: period resolution is a total function — for every query, reference
instant and general-parser behavior it returns exactly one period (the
fall-through default being the current month), and every period it returns
satisfies `start <= end`. -/
theorem C8_extractPeriodFromQuery_invariant
    (chronoParse : List Char → SimpleDate → Option ChronoSpan)
    (query : List Char) (now : SimpleDate) :
    dateLe (extractPeriodFromQuery chronoParse query now).start
      (extractPeriodFromQuery chronoParse query now).endDate := by
  unfold extractPeriodFromQuery
  split_ifs
  · cases findMonth query with
    | none => exact chronoPath_dateLe chronoParse query now
    | some m => exact monthRangeOfYM_dateLe _ _
  · exact chronoPath_dateLe chronoParse query now

/-- C5: ① a query with a month name and no 4-digit token resolves to that
month's full first-to-last-day range in the reference instant's current year,
for every general-parser behavior; ② a 4-digit token anywhere in the query
skips the month-only shortcut and hands the query to the general-parser path;
③ with the spec-modelled parser extracting year 2025 and month 5 without a
certain day, such a query resolves to `{2025-05-01, 2025-05-31}`. -/
theorem C5_extractPeriodFromQuery_monthShortcut
    (chronoParse : List Char → SimpleDate → Option ChronoSpan)
    (query : List Char) (now : SimpleDate) :
    (hasFourDigitToken query = false → ∀ m : ℤ, findMonth query = some m →
      extractPeriodFromQuery chronoParse query now = monthRangeOfYM now.year m) ∧
    (hasFourDigitToken query = true →
      extractPeriodFromQuery chronoParse query now = chronoPath chronoParse query now) ∧
    (hasFourDigitToken query = true →
      ∀ span : ChronoSpan, chronoParse query now = some span →
        span.yearV = some 2025 → span.monthV = some 5 → span.dayCertain = false →
        extractPeriodFromQuery chronoParse query now =
          ⟨⟨2025, 5, 1⟩, ⟨2025, 5, 31⟩⟩) := by
  refine ⟨?_, ?_, ?_⟩
  · intro hy m hm
    unfold extractPeriodFromQuery
    rw [if_pos hy, hm]
  · intro hy
    unfold extractPeriodFromQuery
    rw [if_neg (by simp [hy])]
  · intro hy span hspan hyr hmo hdc
    obtain ⟨yv, mv, dc, dv⟩ := span
    simp only at hyr hmo hdc
    subst hyr
    subst hmo
    subst hdc
    unfold extractPeriodFromQuery
    rw [if_neg (by simp [hy])]
    unfold chronoPath
    rw [hspan]
    norm_num
    decide

/-- The query of the claim's bare-month scenario. -/
def queryMay : List Char := "cost for May".toList

/-- The query of the claim's explicit-year scenario. -/
def queryMay2025 : List Char := "May 2025".toList

/-- A parser oracle that never parses (exercises shortcut and fallbacks). -/
def noParse : List Char → SimpleDate → Option ChronoSpan := fun _ _ => none

/-- Modelled from the spec: chrono-node's behavior on "May 2025" — year and
month extracted, day not certain. -/
def chronoMay2025 : List Char → SimpleDate → Option ChronoSpan :=
  fun _ _ => some ⟨some 2025, some 5, false, ⟨2025, 5, 1⟩⟩

/-- The reference instant 2025-08-15 of the spec's scenario. -/
def nowRef : SimpleDate := ⟨2025, 8, 15⟩

/-- C5 witness: the theorem applied to `"cost for May"` (no year) and
`"May 2025"` (explicit year). -/
theorem C5_witness :
    extractPeriodFromQuery noParse queryMay nowRef = monthRangeOfYM nowRef.year 5 ∧
    extractPeriodFromQuery chronoMay2025 queryMay2025 nowRef =
      ⟨⟨2025, 5, 1⟩, ⟨2025, 5, 31⟩⟩ :=
  ⟨(C5_extractPeriodFromQuery_monthShortcut noParse queryMay nowRef).1
      (by decide) 5 (by decide),
   (C5_extractPeriodFromQuery_monthShortcut chronoMay2025 queryMay2025 nowRef).2.2
      (by decide) _ rfl rfl rfl rfl⟩

/- ===== src/mastra/tools/aws-cost-fetcher.ts : previous-period window ===== -/

/-- Previous-period window computation of `fetchPreviousPeriodData`.  Dates
are epoch-day numbers: an ISO `YYYY-MM-DD` string parses to a UTC midnight,
so `getTime()` is the day number times 86400000 and the `setDate`/`getDate`
adjustments shift by whole days (the local-time detour of `setDate` preserves
the time of day, so it cancels in `toISOString`).  Only the period arithmetic
is modelled; the fetch itself is the external API call.  Result is
`(prevStart, prevEnd)`. -/
def fetchPreviousPeriodData (startDate endDate : ℤ) : ℤ × ℤ :=
  let daysDiff : ℤ :=
    ⌈((endDate * 86400000 - startDate * 86400000 : ℤ) : ℚ) / (86400000 : ℚ)⌉
  let prevEnd : ℤ := startDate - 1
  let prevStart : ℤ := prevEnd - daysDiff + 1
  (prevStart, prevEnd)

/-- The `Math.ceil` of the millisecond difference over a day is exactly the
day difference (the inputs are UTC midnights). -/
theorem fetchPrev_daysDiff (s e : ℤ) :
    ⌈((e * 86400000 - s * 86400000 : ℤ) : ℚ) / (86400000 : ℚ)⌉ = e - s := by
  have h1 : ((e * 86400000 - s * 86400000 : ℤ) : ℚ) = ((e - s : ℤ) : ℚ) * 86400000 := by
    push_cast
    ring
  rw [h1, mul_div_cancel_right₀ _ (by norm_num : (86400000 : ℚ) ≠ 0), Int.ceil_intCast]

/-- C3 (amended): for `start ≤ end` the requested previous period is
`prevEnd = start - 1` and `prevStart = prevEnd - (daysInclusive(start,end) - 2)`
— one day SHORTER (inclusively) than the current window, not of identical
length; in particular for a single-day current period the requested window is
inverted (`prevStart = prevEnd + 1`), not the single preceding day. -/
theorem C3_fetchPreviousPeriodData_amended (s e : ℤ) (h : s ≤ e) :
    (fetchPreviousPeriodData s e).2 = s - 1 ∧
    (fetchPreviousPeriodData s e).1 = (s - 1) - ((e - s + 1) - 2) ∧
    (fetchPreviousPeriodData s e).2 - (fetchPreviousPeriodData s e).1 + 1 =
      (e - s + 1) - 1 ∧
    (s = e → (fetchPreviousPeriodData s e).1 = (fetchPreviousPeriodData s e).2 + 1) := by
  unfold fetchPreviousPeriodData
  rw [fetchPrev_daysDiff]
  refine ⟨rfl, by ring, by ring, ?_⟩
  intro he
  subst he
  ring

/-- C3 (counterexample to the claim as stated): for the single-day current
period `{0, 0}` the code requests `prevStart = 0`, not the claim's
`prevEnd - (daysInclusive - 1) = -1`; the requested "previous period" is the
inverted window `(0, -1)` rather than the single preceding day. -/
theorem C3_counterexample :
    fetchPreviousPeriodData 0 0 = (0, -1) ∧
    ((0 : ℤ) - 1) - ((0 - 0 + 1) - 1) = -1 ∧
    (fetchPreviousPeriodData 0 0).1 ≠ ((0 : ℤ) - 1) - ((0 - 0 + 1) - 1) := by
  have h : fetchPreviousPeriodData 0 0 = (0, -1) := by
    unfold fetchPreviousPeriodData
    rw [fetchPrev_daysDiff]
    norm_num
  refine ⟨h, by norm_num, ?_⟩
  rw [h]
  norm_num

/-- C3 witness: the amended theorem applied to the 3-day period `{1, 3}`. -/
theorem C3_witness :
    (fetchPreviousPeriodData 1 3).2 = (1 : ℤ) - 1 ∧
    (fetchPreviousPeriodData 1 3).1 = ((1 : ℤ) - 1) - ((3 - 1 + 1) - 2) ∧
    (fetchPreviousPeriodData 1 3).2 - (fetchPreviousPeriodData 1 3).1 + 1 =
      ((3 : ℤ) - 1 + 1) - 1 :=
  ⟨(C3_fetchPreviousPeriodData_amended 1 3 (by norm_num)).1,
   (C3_fetchPreviousPeriodData_amended 1 3 (by norm_num)).2.1,
   (C3_fetchPreviousPeriodData_amended 1 3 (by norm_num)).2.2.1⟩

/-- C2 witness: the theorem applied at concrete inputs (threshold 5, the
source default). -/
theorem C2_witness :
    (determineTrend 4 5 = Trend.stable ↔ |(4 : ℚ)| < 5) ∧
    determineTrend 10 5 = Trend.increasing ∧
    determineTrend (-10) 5 = Trend.decreasing ∧
    determineTrend 5 5 ≠ Trend.stable :=
  ⟨(C2_determineTrend_spec 4 5).1,
   (C2_determineTrend_spec 10 5).2.1 (by norm_num) (by norm_num),
   (C2_determineTrend_spec (-10) 5).2.2.1 (by norm_num) (by norm_num),
   (C2_determineTrend_spec 5 5).2.2.2 (by norm_num)⟩
